import Mathlib

/-!
# Flappy-Bird: a shallow embedding of `main.cpp` and its verified properties

The per-frame simulation of `src/Flappy-Bird/main.cpp` is embedded as pure
functions over exact rationals (`ℚ`) in place of `float`.  The constants
`0.6f`, `-8.5f`, `3.5f`, `1.6f`, `0.7f`, `0.8f`, `1.8f` are read as the
decimal numbers written in the source.  `int` counters are unbounded integers
(signed overflow of `score` is outside the model).

What the source obtains from its environment is an explicit input:
* the size of `pipe.png` (`Texture`),
* the width of the bird's global bounding box, which SFML derives from the
  bird texture and the current rotation (`Env.birdBoundsWidth`),
* per frame: the polled events, the reading of `pipeSpawnClock` and the value
  `std::rand()` would return.
-/

namespace FlappyBird

/-! ## Data model -/

/-- Counterpart of `sf::Vector2f`. -/
structure Vector2f where
  x : ℚ
  y : ℚ
deriving DecidableEq

/-- Counterpart of `sf::FloatRect`. -/
structure FloatRect where
  left : ℚ
  top : ℚ
  width : ℚ
  height : ℚ
deriving DecidableEq

/-- Pixel size of a loaded texture (`sf::Texture::getSize`). -/
structure Texture where
  width : ℕ
  height : ℕ
deriving DecidableEq

/-- A pipe sprite: `sf::Sprite` over the pipe texture with origin `(0, 0)` and
no rotation, which is how every pipe of `main.cpp` is built.  Only position and
scale are ever set. -/
structure Sprite where
  posX : ℚ
  posY : ℚ
  scaleX : ℚ
  scaleY : ℚ
deriving DecidableEq

/-- The bird sprite: its position (its origin is the sprite centre) and the
angle last handed to `setRotation`. -/
structure Bird where
  pos : Vector2f
  rotation : ℚ
deriving DecidableEq

/-- Inputs fixed for a whole run. -/
structure Env where
  /-- Size of `pipe.png`. -/
  pipeTex : Texture
  /-- Value of `bird.getGlobalBounds().width` as a function of the bird rotation. -/
  birdBoundsWidth : ℚ → ℚ

/-- The mutable variables of `main` that the simulation reads and writes. -/
structure Game where
  bird : Bird
  velocity : ℚ
  gameStarted : Bool
  isGameOver : Bool
  pipes : List Sprite
  score : Int
  highScore : Int
  newRecordSet : Bool
deriving DecidableEq

/-- Events delivered by `window.pollEvent`. -/
inductive Event where
  | closed
  | spacePressed
  | other
deriving DecidableEq

/-- What one iteration of the game loop reads from outside. -/
structure FrameInput where
  /-- Events polled in this frame, in order. -/
  events : List Event
  /-- Reading of `pipeSpawnClock.getElapsedTime().asSeconds()`. -/
  elapsed : ℚ
  /-- Value returned by `std::rand()` if it is called. -/
  rnd : ℕ

/-! ## Helper functions (lines 8-54) -/

/-- `sf::Sprite::move(dx, dy)`. -/
def Sprite.move (p : Sprite) (dx dy : ℚ) : Sprite :=
  { p with posX := p.posX + dx, posY := p.posY + dy }

/-- `sf::Sprite::getGlobalBounds()` for a pipe: the bounding box of the
texture rectangle `[0, w] × [0, h]` after scaling and translation. -/
def Sprite.getGlobalBounds (tex : Texture) (p : Sprite) : FloatRect :=
  let x0 := p.posX
  let x1 := p.posX + p.scaleX * (tex.width : ℚ)
  let y0 := p.posY
  let y1 := p.posY + p.scaleY * (tex.height : ℚ)
  { left := min x0 x1
    top := min y0 y1
    width := max x0 x1 - min x0 x1
    height := max y0 y1 - min y0 y1 }

/-- Square of `getDistance(p1, p2)` (line 12 without the square root). -/
def getDistanceSq (p1 p2 : Vector2f) : ℚ :=
  (p1.x - p2.x) ^ 2 + (p1.y - p2.y) ^ 2

/-- Exact decision of `std::sqrt(a) < r` on rationals: a square root is
non-negative, so the comparison holds exactly when `r` is positive and
`a < r * r` (see `sqrtLt_iff_real`). -/
def sqrtLt (a r : ℚ) : Bool :=
  decide (0 < r ∧ a < r ^ 2)

/-- `getPipeHitbox` (lines 16-35). -/
def getPipeHitbox (tex : Texture) (pipe : Sprite) : FloatRect :=
  let bounds := pipe.getGlobalBounds tex
  let sideTrim : ℚ := 140
  let gapTrim : ℚ := 50
  let bounds := { bounds with left := bounds.left + sideTrim }
  let bounds := { bounds with width := bounds.width - sideTrim * 2 }
  if pipe.scaleY < 0 then
    { bounds with height := bounds.height - gapTrim }
  else
    let bounds := { bounds with top := bounds.top + gapTrim }
    { bounds with height := bounds.height - gapTrim }

/-- The point of the trimmed rectangle that `checkCollision` computes on
lines 47-48. -/
def closestPoint (c : Vector2f) (r : FloatRect) : Vector2f :=
  { x := max r.left (min c.x (r.left + r.width))
    y := max r.top (min c.y (r.top + r.height)) }

/-- `checkCollision` (lines 38-54). -/
def checkCollision (env : Env) (bird : Bird) (pipe : Sprite) : Bool :=
  let birdRadius := (env.birdBoundsWidth bird.rotation / 2) * (7 / 10)
  let birdCenter := bird.pos
  let pipeRect := getPipeHitbox env.pipeTex pipe
  let closest := closestPoint birdCenter pipeRect
  sqrtLt (getDistanceSq birdCenter closest) birdRadius

/-! ## The game loop (lines 130-223) -/

/-- Value of `gravity`. -/
def gravity : ℚ := 3 / 5

/-- Value of `jumpHeight`. -/
def jumpHeight : ℚ := -17 / 2

/-- State of `main` when the game loop is first entered (lines 73-92). -/
def initGame : Game :=
  { bird := { pos := { x := 70, y := 300 }, rotation := 0 }
    velocity := 0
    gameStarted := false
    isGameOver := false
    pipes := []
    score := 0
    highScore := 0
    newRecordSet := false }

/-- Body of the event loop for one event (lines 133-151).  `Closed` only
closes the window, which ends the loop after the current frame. -/
def handleEvent (s : Game) : Event → Game
  | Event.spacePressed =>
    if s.isGameOver then
      { s with
        isGameOver := false
        gameStarted := false
        bird := { pos := { x := 70, y := 300 }, rotation := 0 }
        pipes := []
        velocity := 0
        score := 0
        newRecordSet := false }
    else
      { s with gameStarted := true, velocity := jumpHeight }
  | _ => s

/-- The inner `while (window.pollEvent(event))` loop. -/
def handleEvents (s : Game) (evs : List Event) : Game :=
  evs.foldl handleEvent s

/-- Variables touched by the move/score/reap loop. -/
structure LoopState where
  pipes : List Sprite
  score : Int
  isGameOver : Bool
deriving DecidableEq

/-- Body of the loop of lines 184-202 at index `i < pipes.size()`: returns the
index and the variables with which the next iteration starts. -/
def loopBody (env : Env) (bird : Bird) (i : ℕ) (st : LoopState)
    (h : i < st.pipes.length) : ℕ × LoopState :=
  let p := (st.pipes.get ⟨i, h⟩).move (-7 / 2) 0
  let pipes := st.pipes.set i p
  let over := if checkCollision env bird p then true else st.isGameOver
  let score :=
    if p.scaleY > 0 then
      let pipeCenter := p.posX + (p.getGlobalBounds env.pipeTex).width / 2
      if pipeCenter < 70 ∧ pipeCenter > 70 - 7 / 2 then st.score + 1 else st.score
    else st.score
  if (p.getGlobalBounds env.pipeTex).left + (p.getGlobalBounds env.pipeTex).width < 0 then
    (i, { pipes := pipes.eraseIdx i, score := score, isGameOver := over })
  else
    (i + 1, { pipes := pipes, score := score, isGameOver := over })

/-- The loop `for (size_t i = 0; i < pipes.size(); )` of lines 184-202,
started at index `i`. -/
def pipeLoop (env : Env) (bird : Bird) (i : ℕ) (st : LoopState) : LoopState :=
  if h : i < st.pipes.length then
    pipeLoop env bird (loopBody env bird i st h).1 (loopBody env bird i st h).2
  else st
termination_by st.pipes.length - i
decreasing_by
  simp_wf
  unfold loopBody
  dsimp only
  split
  · simp only [List.length_eraseIdx, List.length_set]
    split <;> omega
  · simp only [List.length_set]
    omega

/-- The sprite `topP` of lines 169-171 for a given `gapY`. -/
def topPipe (gapY : ℚ) : Sprite :=
  { posX := 450, posY := gapY, scaleX := 4 / 5, scaleY := -9 / 5 }

/-- The sprite `botP` of lines 175-177 for a given `gapY`. -/
def bottomPipe (gapY : ℚ) : Sprite :=
  { posX := 450, posY := gapY + 160, scaleX := 4 / 5, scaleY := 9 / 5 }

/-- The two sprites pushed by the spawn block (lines 166-178), in push order;
`gapY = std::rand() % 250 + 150`. -/
def spawnPair (rnd : ℕ) : List Sprite :=
  let gapY : ℚ := ((rnd % 250 + 150 : ℕ) : ℚ)
  [topPipe gapY, bottomPipe gapY]

/-- The block `--- UPDATE LOGIC ---` (lines 155-205). -/
def updateLogic (env : Env) (s : Game) (elapsed : ℚ) (rnd : ℕ) : Game :=
  if s.gameStarted && !s.isGameOver then
    let velocity := s.velocity + gravity
    let bird : Bird := { pos := { x := s.bird.pos.x + 0, y := s.bird.pos.y + velocity },
                         rotation := velocity * 3 }
    let over := if bird.pos.y < 0 ∨ bird.pos.y > 600 then true else s.isGameOver
    let pipes := if elapsed > 8 / 5 then s.pipes ++ spawnPair rnd else s.pipes
    let out := pipeLoop env bird 0 { pipes := pipes, score := s.score, isGameOver := over }
    { s with
      velocity := velocity
      bird := bird
      isGameOver := out.isGameOver
      pipes := out.pipes
      score := out.score }
  else s

/-- The block `--- GAME OVER LOGIC ---` (lines 208-212); the rest of the block
only formats text. -/
def gameOverLogic (s : Game) : Game :=
  if s.isGameOver then
    if s.score > s.highScore then
      { s with highScore := s.score, newRecordSet := true }
    else s
  else s

/-- One iteration of `while (window.isOpen())`. -/
def tick (env : Env) (s : Game) (inp : FrameInput) : Game :=
  gameOverLogic (updateLogic env (handleEvents s inp.events) inp.elapsed inp.rnd)

/-- State after the given frames, from program start. -/
def run (env : Env) (inputs : List FrameInput) : Game :=
  inputs.foldl (tick env) initGame

/-! ## Functional reading of the move/score/reap loop -/

/-- One obstacle advanced by one frame: `move(-3.5f, 0)`. -/
def advance (p : Sprite) : Sprite :=
  p.move (-7 / 2) 0

/-- Right edge of the sprite's bounding box (`left + width`). -/
def rightEdge (tex : Texture) (p : Sprite) : ℚ :=
  (p.getGlobalBounds tex).left + (p.getGlobalBounds tex).width

/-- Horizontal centre used by the score test (line 192). -/
def pipeCenter (tex : Texture) (p : Sprite) : ℚ :=
  p.posX + (p.getGlobalBounds tex).width / 2

/-- The score test of lines 191-193 on an already moved pipe. -/
def scores (tex : Texture) (p : Sprite) : Bool :=
  decide (p.scaleY > 0 ∧ pipeCenter tex p < 70 ∧ pipeCenter tex p > 70 - 7 / 2)

/-- Specification of the move/reap pass in the words of the design: move every
obstacle left by 3.5 once, then keep, in order, exactly those whose right edge
is not below 0. -/
def advanceAndReap (tex : Texture) (pipes : List Sprite) : List Sprite :=
  (pipes.map advance).filter (fun p => decide (¬ rightEdge tex p < 0))

/-- Number of score increments the loop performs on the given obstacles. -/
def scoreGain (tex : Texture) (pipes : List Sprite) : ℕ :=
  (pipes.map advance).countP (scores tex)

/-- Whether some advanced obstacle collides with the bird. -/
def anyHit (env : Env) (bird : Bird) (pipes : List Sprite) : Bool :=
  (pipes.map advance).any (checkCollision env bird)

/-- The bird after the physics lines 157-159 of a Flying frame. -/
def birdAfterPhysics (s : Game) : Bird :=
  { pos := { x := s.bird.pos.x + 0, y := s.bird.pos.y + (s.velocity + gravity) }
    rotation := (s.velocity + gravity) * 3 }

/-- The obstacle vector after the spawn block of lines 165-181. -/
def pipesAfterSpawn (s : Game) (elapsed : ℚ) (rnd : ℕ) : List Sprite :=
  if elapsed > 8 / 5 then s.pipes ++ spawnPair rnd else s.pipes

/-- The round is in the Flying state: started and not over. -/
def Flying (s : Game) : Prop :=
  s.gameStarted = true ∧ s.isGameOver = false

/-- The round is in the NotStarted state. -/
def NotStarted (s : Game) : Prop :=
  s.gameStarted = false ∧ s.isGameOver = false

instance (s : Game) : Decidable (Flying s) :=
  inferInstanceAs (Decidable (s.gameStarted = true ∧ s.isGameOver = false))

instance (s : Game) : Decidable (NotStarted s) :=
  inferInstanceAs (Decidable (s.gameStarted = false ∧ s.isGameOver = false))

/-- The obstacle vector is a sequence of complete pairs: a top pipe (negative
y-scale) directly followed by its bottom pipe (positive y-scale) at the same x
and 160 lower. -/
def Paired : List Sprite → Prop
  | [] => True
  | [_] => False
  | t :: b :: rest =>
    t.scaleY < 0 ∧ b.scaleY > 0 ∧ t.posX = b.posX ∧ b.posY = t.posY + 160 ∧ Paired rest

/-- Strengthening of `Paired` that is inductive along a run: the two sprites
of a pair also share their x-scale, hence leave the screen together. -/
def PairedStrong : List Sprite → Prop
  | [] => True
  | [_] => False
  | t :: b :: rest =>
    (t.scaleY < 0 ∧ b.scaleY > 0 ∧ t.posX = b.posX ∧ b.posY = t.posY + 160 ∧
      t.scaleX = b.scaleX) ∧ PairedStrong rest

/-- A game state together with a history variable: the value `highScore` had
at the moment the current game over was entered (after the update logic set
`isGameOver`, before the game-over logic ran). -/
structure Traced where
  game : Game
  entryHigh : Int

/-- One frame on a traced state.  The `game` component is `tick`; the history
variable is refreshed exactly in a frame whose update logic turns a round that
was not over into one that is. -/
def tickTraced (env : Env) (t : Traced) (inp : FrameInput) : Traced :=
  let s1 := handleEvents t.game inp.events
  let s2 := updateLogic env s1 inp.elapsed inp.rnd
  { game := gameOverLogic s2
    entryHigh := if s2.isGameOver && !s1.isGameOver then s2.highScore else t.entryHigh }

/-- Traced state after the given frames, from program start. -/
def runTraced (env : Env) (inputs : List FrameInput) : Traced :=
  inputs.foldl (tickTraced env) { game := initGame, entryHigh := 0 }

/-- Invariant linking the record bookkeeping to the history variable. -/
def RecordInv (t : Traced) : Prop :=
  (t.game.isGameOver = false → t.game.newRecordSet = false) ∧
  (t.game.isGameOver = true →
    (t.game.newRecordSet = true ↔ t.game.score > t.entryHigh) ∧
    t.game.highScore = max t.entryHigh t.game.score)

/-- The value of `birdRadius` on line 40. -/
def birdRadius (env : Env) (bird : Bird) : ℚ :=
  (env.birdBoundsWidth bird.rotation / 2) * (7 / 10)

/-! ## Sample inputs -/

/-- An environment with a 90 x 400 pipe texture and a bird whose bounding box
is 34 wide at every rotation. -/
def sampleEnv : Env :=
  { pipeTex := { width := 90, height := 400 }, birdBoundsWidth := fun _ => 34 }

/-- An environment with a 380 x 400 pipe texture. -/
def wideEnv : Env :=
  { pipeTex := { width := 380, height := 400 }, birdBoundsWidth := fun _ => 34 }

/-- A Flying state just below the top of the window, moving up at the jump
speed, with one pair of obstacles whose centre is about to cross the bird. -/
def sampleFlying : Game :=
  { bird := { pos := { x := 70, y := 69 / 10 }, rotation := -237 / 10 }
    velocity := -17 / 2
    gameStarted := true
    isGameOver := false
    pipes := [{ topPipe 200 with posX := 37 }, { bottomPipe 200 with posX := 37 }]
    score := 4
    highScore := 9
    newRecordSet := false }

/-- A frame without events in which the spawn clock has not elapsed. -/
def sampleQuietInput : FrameInput :=
  { events := [Event.other], elapsed := 1 / 2, rnd := 0 }

/-- A frame in which Space is pressed and nothing is spawned. -/
def sampleJumpInput : FrameInput :=
  { events := [Event.spacePressed], elapsed := 0, rnd := 0 }

/-- A frame without events in which the spawn clock has elapsed. -/
def sampleSpawnInput : FrameInput :=
  { events := [], elapsed := 2, rnd := 100 }

/-- A GameOver state with obstacles, a score and a record, used to exercise
the restart. -/
def sampleGameOver : Game :=
  { bird := { pos := { x := 70, y := 612 }, rotation := 24 }
    velocity := 8
    gameStarted := true
    isGameOver := true
    pipes := [topPipe 200, bottomPipe 200]
    score := 3
    highScore := 7
    newRecordSet := false }

/-- Frames `0 .. n-1` of a session in which Space is pressed every 28th frame
and the spawn clock has elapsed in frame 0 only, where `std::rand()` yields
100 (so `gapY = 250`). -/
def steadyInputs (n : ℕ) : List FrameInput :=
  (List.range n).map fun f =>
    { events := if f % 28 = 0 then [Event.spacePressed] else []
      elapsed := if f = 0 then 2 else 0
      rnd := 100 }

/-- The start state followed by the state after each frame. -/
def statesAlong (env : Env) (inputs : List FrameInput) : List Game :=
  List.scanl (tick env) initGame inputs

/-- The sprite has the x-scale of a pipe and sits where a pipe spawned at
`x = 450` is after some whole number of moves. -/
def OnGrid (p : Sprite) : Prop :=
  p.scaleX = 4 / 5 ∧ ∃ k : ℕ, p.posX = 450 - 7 / 2 * (k : ℚ)

/-- Invariant of every run with a 380 pixel wide pipe texture. -/
def NeverScored (g : Game) : Prop :=
  g.score = 0 ∧ ∀ p ∈ g.pipes, OnGrid p

/-- A bottom pipe one move before its centre reaches `x = 70` (380 pixel wide
texture): the 151st position after the spawn at `x = 450`. -/
def pipeBeforeCrossing : Sprite :=
  { bottomPipe 250 with posX := 450 - 7 / 2 * 151 }

/-! ## Lemmas about the loop -/

theorem loopBody_append (env : Env) (bird : Bird) (pre : List Sprite) (p0 : Sprite)
    (r : List Sprite) (sc : Int) (ov : Bool)
    (h : pre.length < (pre ++ p0 :: r).length) :
    loopBody env bird pre.length { pipes := pre ++ p0 :: r, score := sc, isGameOver := ov } h =
      if rightEdge env.pipeTex (advance p0) < 0 then
        (pre.length,
          { pipes := pre ++ r
            score := if scores env.pipeTex (advance p0) then sc + 1 else sc
            isGameOver := ov || checkCollision env bird (advance p0) })
      else
        ((pre ++ [advance p0]).length,
          { pipes := (pre ++ [advance p0]) ++ r
            score := if scores env.pipeTex (advance p0) then sc + 1 else sc
            isGameOver := ov || checkCollision env bird (advance p0) }) := by
  have hget : (pre ++ p0 :: r).get ⟨pre.length, h⟩ = p0 := by
    simp [List.getElem_append_right]
  have hset : (pre ++ p0 :: r).set pre.length (advance p0) = pre ++ advance p0 :: r := by
    simp
  have herase : (pre ++ advance p0 :: r).eraseIdx pre.length = pre ++ r := by
    simp [List.eraseIdx_append_of_length_le]
  unfold loopBody
  simp only [hget]
  rw [show p0.move (-7 / 2) 0 = advance p0 from rfl, hset, herase]
  have hsc : (if (advance p0).scaleY > 0 then
        if (advance p0).posX + ((advance p0).getGlobalBounds env.pipeTex).width / 2 < 70 ∧
            (advance p0).posX + ((advance p0).getGlobalBounds env.pipeTex).width / 2 > 70 - 7 / 2
        then sc + 1 else sc
      else sc) = if scores env.pipeTex (advance p0) then sc + 1 else sc := by
    unfold scores pipeCenter
    by_cases h1 : (advance p0).scaleY > 0 <;> simp [h1]
  have hov : (if checkCollision env bird (advance p0) then true else ov)
      = (ov || checkCollision env bird (advance p0)) := by
    cases checkCollision env bird (advance p0) <;> simp
  simp only [hsc, hov, rightEdge, List.length_append, List.length_singleton, List.append_assoc,
    List.singleton_append]

theorem advanceAndReap_cons (tex : Texture) (p : Sprite) (r : List Sprite) :
    advanceAndReap tex (p :: r) =
      if rightEdge tex (advance p) < 0 then advanceAndReap tex r
      else advance p :: advanceAndReap tex r := by
  unfold advanceAndReap
  rw [List.map_cons, List.filter_cons]
  by_cases h : rightEdge tex (advance p) < 0 <;> simp [h]

theorem scoreGain_cons (tex : Texture) (p : Sprite) (r : List Sprite) :
    scoreGain tex (p :: r) = scoreGain tex r + (if scores tex (advance p) then 1 else 0) := by
  unfold scoreGain
  rw [List.map_cons, List.countP_cons]

theorem anyHit_cons (env : Env) (bird : Bird) (p : Sprite) (r : List Sprite) :
    anyHit env bird (p :: r) = (checkCollision env bird (advance p) || anyHit env bird r) := by
  unfold anyHit
  rw [List.map_cons, List.any_cons]

theorem pipeLoop_append (env : Env) (bird : Bird) (rest : List Sprite) :
    ∀ (pre : List Sprite) (sc : Int) (ov : Bool),
      pipeLoop env bird pre.length { pipes := pre ++ rest, score := sc, isGameOver := ov } =
        { pipes := pre ++ advanceAndReap env.pipeTex rest
          score := sc + (scoreGain env.pipeTex rest : ℕ)
          isGameOver := ov || anyHit env bird rest } := by
  induction rest with
  | nil =>
    intro pre sc ov
    rw [pipeLoop]
    simp [advanceAndReap, scoreGain, anyHit]
  | cons p0 r ih =>
    intro pre sc ov
    have hlt : pre.length < (pre ++ p0 :: r).length := by simp
    rw [pipeLoop]
    simp only [hlt, dite_true]
    rw [loopBody_append, advanceAndReap_cons, scoreGain_cons, anyHit_cons]
    have hscore : (if scores env.pipeTex (advance p0) = true then sc + 1 else sc)
          + (scoreGain env.pipeTex r : ℕ)
        = sc + ((scoreGain env.pipeTex r + (if scores env.pipeTex (advance p0) = true then 1 else 0)
            : ℕ) : ℤ) := by
      by_cases hs : scores env.pipeTex (advance p0) = true
      · simp only [hs, if_true]; push_cast; ring
      · simp only [hs, if_false]; push_cast; ring
    by_cases hoff : rightEdge env.pipeTex (advance p0) < 0
    · simp only [hoff, if_true]
      rw [ih, hscore, Bool.or_assoc]
    · simp only [hoff, if_false]
      rw [ih, hscore, Bool.or_assoc, List.append_assoc, List.singleton_append]

/-- Result of the whole loop of lines 184-202, which starts at index 0. -/
theorem pipeLoop_eq (env : Env) (bird : Bird) (st : LoopState) :
    pipeLoop env bird 0 st =
      { pipes := advanceAndReap env.pipeTex st.pipes
        score := st.score + (scoreGain env.pipeTex st.pipes : ℕ)
        isGameOver := st.isGameOver || anyHit env bird st.pipes } := by
  have h := pipeLoop_append env bird st.pipes [] st.score st.isGameOver
  simpa using h

/-! ## Lemmas about a frame -/

theorem updateLogic_flying (env : Env) (s : Game) (elapsed : ℚ) (rnd : ℕ)
    (h : Flying s) :
    updateLogic env s elapsed rnd =
      { s with
        velocity := s.velocity + gravity
        bird := birdAfterPhysics s
        isGameOver :=
          decide ((birdAfterPhysics s).pos.y < 0 ∨ (birdAfterPhysics s).pos.y > 600) ||
            anyHit env (birdAfterPhysics s) (pipesAfterSpawn s elapsed rnd)
        pipes := advanceAndReap env.pipeTex (pipesAfterSpawn s elapsed rnd)
        score := s.score + (scoreGain env.pipeTex (pipesAfterSpawn s elapsed rnd) : ℕ) } := by
  obtain ⟨h1, h2⟩ := h
  unfold updateLogic
  simp only [h1, h2, Bool.not_false, Bool.and_self, if_true]
  rw [pipeLoop_eq]
  simp only [birdAfterPhysics, pipesAfterSpawn]
  congr 1

theorem updateLogic_not_flying (env : Env) (s : Game) (elapsed : ℚ) (rnd : ℕ)
    (h : ¬ Flying s) : updateLogic env s elapsed rnd = s := by
  unfold updateLogic
  have : (s.gameStarted && !s.isGameOver) = false := by
    unfold Flying at h
    cases hg : s.gameStarted <;> cases ho : s.isGameOver <;> simp_all
  simp [this]

theorem handleEvents_nil (s : Game) : handleEvents s [] = s := rfl

theorem handleEvents_cons (s : Game) (e : Event) (evs : List Event) :
    handleEvents s (e :: evs) = handleEvents (handleEvent s e) evs := rfl

/-- A property kept by every single event is kept by the event loop. -/
theorem handleEvents_preserves (Q : Game → Prop)
    (hstep : ∀ s e, Q s → Q (handleEvent s e)) :
    ∀ (evs : List Event) (s : Game), Q s → Q (handleEvents s evs) := by
  intro evs
  induction evs with
  | nil => intro s hs; exact hs
  | cons e evs ih => intro s hs; exact ih _ (hstep s e hs)

/-- A property of the start state kept by every frame holds after every run. -/
theorem run_preserves (env : Env) (Q : Game → Prop) (h0 : Q initGame)
    (hstep : ∀ s inp, Q s → Q (tick env s inp)) :
    ∀ inputs : List FrameInput, Q (run env inputs) := by
  have key : ∀ (inputs : List FrameInput) (s : Game), Q s → Q (inputs.foldl (tick env) s) := by
    intro inputs
    induction inputs with
    | nil => intro s hs; exact hs
    | cons inp rest ih => intro s hs; exact ih _ (hstep s inp hs)
  intro inputs
  exact key inputs initGame h0

/-! ## Verified properties -/

/-- C8: handling one Space press in a GameOver state empties the obstacle
vector, sets score to 0, clears the new-record flag, puts the bird back at
`(70, 300)` with rotation 0, sets the velocity to 0 and leaves the round
NotStarted, while `highScore` keeps its value. -/
theorem C8_restart_resets_round (s : Game) (h : s.isGameOver = true) :
    (handleEvent s Event.spacePressed).pipes = [] ∧
    (handleEvent s Event.spacePressed).score = 0 ∧
    (handleEvent s Event.spacePressed).newRecordSet = false ∧
    (handleEvent s Event.spacePressed).bird = { pos := { x := 70, y := 300 }, rotation := 0 } ∧
    (handleEvent s Event.spacePressed).velocity = 0 ∧
    NotStarted (handleEvent s Event.spacePressed) ∧
    (handleEvent s Event.spacePressed).highScore = s.highScore := by
  simp [handleEvent, h, NotStarted]

theorem C8_restart_resets_round_witness :
    sampleGameOver.isGameOver = true ∧
    (handleEvent sampleGameOver Event.spacePressed).pipes = [] ∧
    (handleEvent sampleGameOver Event.spacePressed).score = 0 ∧
    (handleEvent sampleGameOver Event.spacePressed).newRecordSet = false ∧
    (handleEvent sampleGameOver Event.spacePressed).bird
      = { pos := { x := 70, y := 300 }, rotation := 0 } ∧
    (handleEvent sampleGameOver Event.spacePressed).velocity = 0 ∧
    NotStarted (handleEvent sampleGameOver Event.spacePressed) ∧
    (handleEvent sampleGameOver Event.spacePressed).highScore = sampleGameOver.highScore :=
  ⟨rfl, C8_restart_resets_round sampleGameOver rfl⟩

theorem handleEvents_no_space (s : Game) (evs : List Event)
    (h : Event.spacePressed ∉ evs) : handleEvents s evs = s := by
  induction evs generalizing s with
  | nil => rfl
  | cons e evs ih =>
    rw [handleEvents_cons]
    have he : e ≠ Event.spacePressed := fun hc => h (by simp [hc])
    have hrest : Event.spacePressed ∉ evs := fun hc => h (by simp [hc])
    have hs : handleEvent s e = s := by
      cases e with
      | closed => rfl
      | spacePressed => exact absurd rfl he
      | other => rfl
    rw [hs]
    exact ih s hrest

theorem gameOverLogic_velocity (s : Game) : (gameOverLogic s).velocity = s.velocity := by
  unfold gameOverLogic
  split_ifs <;> rfl

theorem gameOverLogic_bird (s : Game) : (gameOverLogic s).bird = s.bird := by
  unfold gameOverLogic
  split_ifs <;> rfl

theorem gameOverLogic_pipes (s : Game) : (gameOverLogic s).pipes = s.pipes := by
  unfold gameOverLogic
  split_ifs <;> rfl

theorem gameOverLogic_score (s : Game) : (gameOverLogic s).score = s.score := by
  unfold gameOverLogic
  split_ifs <;> rfl

theorem gameOverLogic_isGameOver (s : Game) :
    (gameOverLogic s).isGameOver = s.isGameOver := by
  unfold gameOverLogic
  split_ifs <;> rfl

theorem gameOverLogic_gameStarted (s : Game) :
    (gameOverLogic s).gameStarted = s.gameStarted := by
  unfold gameOverLogic
  split_ifs <;> rfl

/-- C9: over exact rationals, a Flying frame without a jump input ends with
the velocity it began with plus gravity `0.6`, and the bird's y has changed by
exactly that new velocity; and whatever the velocity of a state that is not
GameOver, a Space press sets it to exactly the jump impulse `-8.5`. -/
theorem C9_gravity_and_jump (env : Env) (s : Game) (inp : FrameInput) (s' : Game)
    (hF : Flying s) (hno : Event.spacePressed ∉ inp.events)
    (h' : s'.isGameOver = false) :
    (tick env s inp).velocity = s.velocity + 3 / 5 ∧
    (tick env s inp).bird.pos.y = s.bird.pos.y + (tick env s inp).velocity ∧
    (handleEvent s' Event.spacePressed).velocity = -17 / 2 := by
  refine ⟨?_, ?_, ?_⟩
  · unfold tick
    rw [handleEvents_no_space s inp.events hno, gameOverLogic_velocity,
      updateLogic_flying env s inp.elapsed inp.rnd hF]
    simp [gravity]
  · unfold tick
    rw [handleEvents_no_space s inp.events hno, gameOverLogic_velocity, gameOverLogic_bird,
      updateLogic_flying env s inp.elapsed inp.rnd hF]
    simp [birdAfterPhysics, gravity]
  · simp [handleEvent, h', jumpHeight]

theorem C9_gravity_and_jump_witness :
    Flying sampleFlying ∧ Event.spacePressed ∉ sampleQuietInput.events ∧
    initGame.isGameOver = false ∧
    (tick sampleEnv sampleFlying sampleQuietInput).velocity = sampleFlying.velocity + 3 / 5 ∧
    (tick sampleEnv sampleFlying sampleQuietInput).bird.pos.y
      = sampleFlying.bird.pos.y + (tick sampleEnv sampleFlying sampleQuietInput).velocity ∧
    (handleEvent initGame Event.spacePressed).velocity = -17 / 2 :=
  ⟨⟨rfl, rfl⟩, by decide, rfl,
    C9_gravity_and_jump sampleEnv sampleFlying sampleQuietInput initGame ⟨rfl, rfl⟩
      (by decide) rfl⟩

/-- C6: for the pair spawned at `gapY`, whatever the texture size: the bounds
of the top pipe end at `gapY` and its hitbox ends at `gapY - 50` with the
upper edge untouched; the bounds of the bottom pipe start at `gapY + 160` and
its hitbox starts at `gapY + 160 + 50` with the lower edge untouched; both
hitboxes lose 140 on each side.  For `gapY = 150` the two gap-facing edges are
`100` and `360`. -/
theorem C6_pair_hitboxes (tex : Texture) (gapY : ℚ) :
    ((topPipe gapY).getGlobalBounds tex).top + ((topPipe gapY).getGlobalBounds tex).height
      = gapY ∧
    (getPipeHitbox tex (topPipe gapY)).top + (getPipeHitbox tex (topPipe gapY)).height
      = gapY - 50 ∧
    (getPipeHitbox tex (topPipe gapY)).top = ((topPipe gapY).getGlobalBounds tex).top ∧
    ((bottomPipe gapY).getGlobalBounds tex).top = gapY + 160 ∧
    (getPipeHitbox tex (bottomPipe gapY)).top = gapY + 160 + 50 ∧
    (getPipeHitbox tex (bottomPipe gapY)).top + (getPipeHitbox tex (bottomPipe gapY)).height
      = ((bottomPipe gapY).getGlobalBounds tex).top
        + ((bottomPipe gapY).getGlobalBounds tex).height ∧
    (getPipeHitbox tex (topPipe gapY)).left
      = ((topPipe gapY).getGlobalBounds tex).left + 140 ∧
    (getPipeHitbox tex (topPipe gapY)).left + (getPipeHitbox tex (topPipe gapY)).width
      = ((topPipe gapY).getGlobalBounds tex).left
        + ((topPipe gapY).getGlobalBounds tex).width - 140 ∧
    (getPipeHitbox tex (bottomPipe gapY)).left
      = ((bottomPipe gapY).getGlobalBounds tex).left + 140 ∧
    (getPipeHitbox tex (bottomPipe gapY)).left + (getPipeHitbox tex (bottomPipe gapY)).width
      = ((bottomPipe gapY).getGlobalBounds tex).left
        + ((bottomPipe gapY).getGlobalBounds tex).width - 140 ∧
    (getPipeHitbox tex (topPipe 150)).top + (getPipeHitbox tex (topPipe 150)).height = 100 ∧
    (getPipeHitbox tex (bottomPipe 150)).top = 360 := by
  have hh : (0 : ℚ) ≤ (tex.height : ℚ) := Nat.cast_nonneg _
  have key : ∀ g : ℚ,
      ((topPipe g).getGlobalBounds tex).top + ((topPipe g).getGlobalBounds tex).height = g ∧
      ((bottomPipe g).getGlobalBounds tex).top = g + 160 := by
    intro g
    have h1 : g + -9 / 5 * (tex.height : ℚ) ≤ g := by linarith
    have h2 : g + 160 ≤ g + 160 + 9 / 5 * (tex.height : ℚ) := by linarith
    simp only [Sprite.getGlobalBounds, topPipe, bottomPipe]
    rw [min_eq_right h1, max_eq_left h1, min_eq_left h2]
    constructor <;> ring
  have hT : ∀ g : ℚ, (getPipeHitbox tex (topPipe g)) =
      { left := ((topPipe g).getGlobalBounds tex).left + 140
        top := ((topPipe g).getGlobalBounds tex).top
        width := ((topPipe g).getGlobalBounds tex).width - 140 * 2
        height := ((topPipe g).getGlobalBounds tex).height - 50 } := by
    intro g
    have : (topPipe g).scaleY < 0 := by norm_num [topPipe]
    simp [getPipeHitbox, this]
  have hB : ∀ g : ℚ, (getPipeHitbox tex (bottomPipe g)) =
      { left := ((bottomPipe g).getGlobalBounds tex).left + 140
        top := ((bottomPipe g).getGlobalBounds tex).top + 50
        width := ((bottomPipe g).getGlobalBounds tex).width - 140 * 2
        height := ((bottomPipe g).getGlobalBounds tex).height - 50 } := by
    intro g
    have : ¬ (bottomPipe g).scaleY < 0 := by norm_num [bottomPipe]
    simp [getPipeHitbox, this]
  rw [hT gapY, hB gapY, hT 150, hB 150]
  dsimp only
  obtain ⟨k1, k2⟩ := key gapY
  obtain ⟨k3, k4⟩ := key 150
  refine ⟨k1, ?_, rfl, k2, ?_, ?_, rfl, ?_, rfl, ?_, ?_, ?_⟩
  · linarith
  · linarith
  · ring
  · ring
  · ring
  · linarith
  · linarith

/-- C3 (as stated, refuted): in this Flying frame the bird is at `y = -1` after
the physics step and the round ends GameOver, yet in the same frame a pair was
spawned, every obstacle was moved and the score went from 4 to 5. -/
theorem C3_counterexample :
    Flying (handleEvents sampleFlying sampleSpawnInput.events) ∧
    (birdAfterPhysics (handleEvents sampleFlying sampleSpawnInput.events)).pos.y = -1 ∧
    (tick sampleEnv sampleFlying sampleSpawnInput).isGameOver = true ∧
    sampleFlying.score = 4 ∧
    (tick sampleEnv sampleFlying sampleSpawnInput).score = 5 ∧
    sampleFlying.pipes = [{ topPipe 200 with posX := 37 }, { bottomPipe 200 with posX := 37 }] ∧
    (tick sampleEnv sampleFlying sampleSpawnInput).pipes =
      [{ topPipe 200 with posX := 67 / 2 }, { bottomPipe 200 with posX := 67 / 2 },
       { topPipe 250 with posX := 893 / 2 }, { bottomPipe 250 with posX := 893 / 2 }] := by
  have hF : Flying sampleFlying := ⟨rfl, rfl⟩
  have ht : tick sampleEnv sampleFlying sampleSpawnInput
      = gameOverLogic (updateLogic sampleEnv sampleFlying 2 100) := rfl
  rw [ht, updateLogic_flying sampleEnv sampleFlying 2 100 hF]
  decide!

/-- C3 (amended): if the state is Flying once the events of a frame are
handled and the physics step puts the bird's y below 0 or above 600, the round
is GameOver at the end of that frame; obstacle processing still runs in that
frame exactly as in any Flying frame: the pair is spawned when the clock reads
more than 1.6, every obstacle is moved left by 3.5, the score grows by the
number of bottom pipes passing the score test, and off-screen obstacles are
removed. -/
theorem C3_out_of_bounds_same_frame (env : Env) (s : Game) (inp : FrameInput)
    (hF : Flying (handleEvents s inp.events))
    (hout : (birdAfterPhysics (handleEvents s inp.events)).pos.y < 0 ∨
      (birdAfterPhysics (handleEvents s inp.events)).pos.y > 600) :
    (tick env s inp).isGameOver = true ∧
    (tick env s inp).pipes =
      advanceAndReap env.pipeTex
        (pipesAfterSpawn (handleEvents s inp.events) inp.elapsed inp.rnd) ∧
    (tick env s inp).score =
      (handleEvents s inp.events).score +
        (scoreGain env.pipeTex
          (pipesAfterSpawn (handleEvents s inp.events) inp.elapsed inp.rnd) : ℕ) := by
  unfold tick
  rw [gameOverLogic_isGameOver, gameOverLogic_pipes, gameOverLogic_score,
    updateLogic_flying env _ inp.elapsed inp.rnd hF]
  simp [hout]

theorem C3_out_of_bounds_same_frame_witness :
    Flying (handleEvents sampleFlying sampleSpawnInput.events) ∧
    ((birdAfterPhysics (handleEvents sampleFlying sampleSpawnInput.events)).pos.y < 0 ∨
      (birdAfterPhysics (handleEvents sampleFlying sampleSpawnInput.events)).pos.y > 600) ∧
    (tick sampleEnv sampleFlying sampleSpawnInput).isGameOver = true ∧
    (tick sampleEnv sampleFlying sampleSpawnInput).pipes =
      advanceAndReap sampleEnv.pipeTex
        (pipesAfterSpawn (handleEvents sampleFlying sampleSpawnInput.events)
          sampleSpawnInput.elapsed sampleSpawnInput.rnd) ∧
    (tick sampleEnv sampleFlying sampleSpawnInput).score =
      (handleEvents sampleFlying sampleSpawnInput.events).score +
        (scoreGain sampleEnv.pipeTex
          (pipesAfterSpawn (handleEvents sampleFlying sampleSpawnInput.events)
            sampleSpawnInput.elapsed sampleSpawnInput.rnd) : ℕ) :=
  ⟨⟨rfl, rfl⟩, Or.inl (by decide!),
    C3_out_of_bounds_same_frame sampleEnv sampleFlying sampleSpawnInput ⟨rfl, rfl⟩
      (Or.inl (by decide!))⟩

/-! ### High score bookkeeping -/

theorem handleEvents_gameOver (evs : List Event) :
    ∀ s : Game, (handleEvents s evs).isGameOver = true → handleEvents s evs = s := by
  induction evs with
  | nil => intro s _; rfl
  | cons e evs ih =>
    intro s h
    rw [handleEvents_cons] at h ⊢
    have h1 := ih _ h
    rw [h1] at h ⊢
    cases e with
    | closed => rfl
    | other => rfl
    | spacePressed =>
      exfalso
      cases hs : s.isGameOver <;> simp [handleEvent, hs] at h

theorem handleEvent_highScore (s : Game) (e : Event) :
    (handleEvent s e).highScore = s.highScore := by
  cases e <;> simp only [handleEvent]
  split_ifs <;> rfl

theorem handleEvents_highScore (s : Game) (evs : List Event) :
    (handleEvents s evs).highScore = s.highScore :=
  handleEvents_preserves (fun g => g.highScore = s.highScore)
    (fun g e hg => (handleEvent_highScore g e).trans hg) evs s rfl

theorem handleEvents_newRecord (s : Game) (evs : List Event)
    (h : s.isGameOver = false → s.newRecordSet = false) :
    (handleEvents s evs).isGameOver = false → (handleEvents s evs).newRecordSet = false := by
  refine handleEvents_preserves (fun g => g.isGameOver = false → g.newRecordSet = false)
    ?_ evs s h
  intro g e hg
  cases e with
  | closed => exact hg
  | other => exact hg
  | spacePressed =>
    cases hs : g.isGameOver
    · intro _
      simpa [handleEvent, hs] using hg hs
    · intro _
      simp [handleEvent, hs]

theorem updateLogic_highScore (env : Env) (s : Game) (elapsed : ℚ) (rnd : ℕ) :
    (updateLogic env s elapsed rnd).highScore = s.highScore := by
  unfold updateLogic
  split_ifs <;> rfl

theorem updateLogic_newRecordSet (env : Env) (s : Game) (elapsed : ℚ) (rnd : ℕ) :
    (updateLogic env s elapsed rnd).newRecordSet = s.newRecordSet := by
  unfold updateLogic
  split_ifs <;> rfl

theorem updateLogic_gameOver (env : Env) (s : Game) (elapsed : ℚ) (rnd : ℕ)
    (h : s.isGameOver = true) : updateLogic env s elapsed rnd = s :=
  updateLogic_not_flying env s elapsed rnd (fun hF => by rw [hF.2] at h; exact Bool.noConfusion h)

theorem gameOverLogic_fixed (t : Traced) (hinv : RecordInv t)
    (h : t.game.isGameOver = true) : gameOverLogic t.game = t.game := by
  obtain ⟨_, hmax⟩ := hinv.2 h
  have hle : ¬ t.game.score > t.game.highScore := by
    rw [hmax]
    exact not_lt.mpr (le_max_right _ _)
  simp [gameOverLogic, h, hle]

theorem tickTraced_quiet (env : Env) (t : Traced) (hinv : RecordInv t)
    (h : t.game.isGameOver = true) (inp : FrameInput)
    (hs1 : handleEvents t.game inp.events = t.game) :
    tick env t.game inp = t.game := by
  unfold tick
  rw [hs1, updateLogic_gameOver env t.game _ _ h, gameOverLogic_fixed t hinv h]

theorem RecordInv_tickTraced (env : Env) (t : Traced) (inp : FrameInput)
    (hinv : RecordInv t) : RecordInv (tickTraced env t inp) := by
  unfold tickTraced
  dsimp only
  cases h1 : (handleEvents t.game inp.events).isGameOver
  · -- the round is not over once the events are handled
    have hnr := handleEvents_newRecord t.game inp.events hinv.1 h1
    have hnr2 : (updateLogic env (handleEvents t.game inp.events) inp.elapsed inp.rnd).newRecordSet
        = false := by rw [updateLogic_newRecordSet]; exact hnr
    cases h2 : (updateLogic env (handleEvents t.game inp.events) inp.elapsed inp.rnd).isGameOver
    · have hg : gameOverLogic (updateLogic env (handleEvents t.game inp.events) inp.elapsed inp.rnd)
          = updateLogic env (handleEvents t.game inp.events) inp.elapsed inp.rnd := by
        simp [gameOverLogic, h2]
      rw [hg]
      constructor
      · intro _; exact hnr2
      · intro hc; rw [h2] at hc; exact Bool.noConfusion hc
    · constructor
      · intro hc
        rw [gameOverLogic_isGameOver, h2] at hc
        exact Bool.noConfusion hc
      · intro _
        simp only [Bool.not_false, Bool.and_self, if_true]
        by_cases hgt : (updateLogic env (handleEvents t.game inp.events) inp.elapsed inp.rnd).score
            > (updateLogic env (handleEvents t.game inp.events) inp.elapsed inp.rnd).highScore
        · simp [gameOverLogic, h2, hgt, le_of_lt hgt]
        · simp [gameOverLogic, h2, hgt, hnr2, not_lt.mp hgt]
  · -- the round is still over: nothing moves
    have hs1 := handleEvents_gameOver inp.events t.game h1
    rw [hs1] at h1
    rw [hs1, updateLogic_gameOver env t.game _ _ h1, gameOverLogic_fixed t hinv h1]
    simp only [h1, Bool.not_true, Bool.and_false, Bool.false_eq_true, if_false]
    exact hinv

theorem runTraced_game (env : Env) (inputs : List FrameInput) :
    (runTraced env inputs).game = run env inputs := by
  have key : ∀ (inputs : List FrameInput) (t : Traced),
      (inputs.foldl (tickTraced env) t).game = inputs.foldl (tick env) t.game := by
    intro inputs
    induction inputs with
    | nil => intro t; rfl
    | cons inp rest ih => intro t; rw [List.foldl_cons, List.foldl_cons, ih]; rfl
  exact key inputs _

theorem RecordInv_runTraced (env : Env) (inputs : List FrameInput) :
    RecordInv (runTraced env inputs) := by
  have key : ∀ (inputs : List FrameInput) (t : Traced),
      RecordInv t → RecordInv (inputs.foldl (tickTraced env) t) := by
    intro inputs
    induction inputs with
    | nil => intro t ht; exact ht
    | cons inp rest ih => intro t ht; exact ih _ (RecordInv_tickTraced env t inp ht)
  refine key inputs _ ⟨fun _ => rfl, fun h => ?_⟩
  exact Bool.noConfusion h

/-- C4: after any run that ends in a frame with the round GameOver, with
`entryHigh` the value of `highScore` when this game over was entered:
`newRecordSet` holds exactly when the score exceeds `entryHigh`, `highScore`
is the maximum of `entryHigh` and the score, and the game-over step is a
no-op from then on: running it again, or running a whole further frame in
which no Space is pressed, returns the same state. -/
theorem C4_record_bookkeeping (env : Env) (inputs : List FrameInput)
    (h : (run env inputs).isGameOver = true) :
    (runTraced env inputs).game = run env inputs ∧
    ((run env inputs).newRecordSet = true ↔
      (run env inputs).score > (runTraced env inputs).entryHigh) ∧
    (run env inputs).highScore
      = max (runTraced env inputs).entryHigh (run env inputs).score ∧
    gameOverLogic (run env inputs) = run env inputs ∧
    ∀ inp : FrameInput, Event.spacePressed ∉ inp.events →
      tick env (run env inputs) inp = run env inputs := by
  have hg := runTraced_game env inputs
  have hinv := RecordInv_runTraced env inputs
  have h' : (runTraced env inputs).game.isGameOver = true := by rw [hg]; exact h
  obtain ⟨hrec, hmax⟩ := hinv.2 h'
  rw [hg] at hrec hmax
  refine ⟨hg, hrec, hmax, ?_, ?_⟩
  · have := gameOverLogic_fixed _ hinv h'
    rwa [hg] at this
  · intro inp hno
    have := tickTraced_quiet env _ hinv h' inp (handleEvents_no_space _ _ hno)
    rwa [hg] at this

theorem C4_record_bookkeeping_witness :
    (run sampleEnv (List.replicate 38 sampleJumpInput)).isGameOver = true ∧
    (runTraced sampleEnv (List.replicate 38 sampleJumpInput)).game
      = run sampleEnv (List.replicate 38 sampleJumpInput) ∧
    ((run sampleEnv (List.replicate 38 sampleJumpInput)).newRecordSet = true ↔
      (run sampleEnv (List.replicate 38 sampleJumpInput)).score
        > (runTraced sampleEnv (List.replicate 38 sampleJumpInput)).entryHigh) ∧
    (run sampleEnv (List.replicate 38 sampleJumpInput)).highScore
      = max (runTraced sampleEnv (List.replicate 38 sampleJumpInput)).entryHigh
          (run sampleEnv (List.replicate 38 sampleJumpInput)).score ∧
    gameOverLogic (run sampleEnv (List.replicate 38 sampleJumpInput))
      = run sampleEnv (List.replicate 38 sampleJumpInput) ∧
    ∀ inp : FrameInput, Event.spacePressed ∉ inp.events →
      tick sampleEnv (run sampleEnv (List.replicate 38 sampleJumpInput)) inp
        = run sampleEnv (List.replicate 38 sampleJumpInput) :=
  ⟨by decide!, C4_record_bookkeeping sampleEnv (List.replicate 38 sampleJumpInput) (by decide!)⟩

/-! ### Obstacles come in pairs -/

theorem PairedStrong_append :
    ∀ a b : List Sprite, PairedStrong a → PairedStrong b → PairedStrong (a ++ b)
  | [], _, _, hb => hb
  | [_], _, ha, _ => ha.elim
  | _ :: _ :: rest, b, ha, hb => ⟨ha.1, PairedStrong_append rest b ha.2 hb⟩

theorem PairedStrong_spawnPair (rnd : ℕ) : PairedStrong (spawnPair rnd) := by
  simp only [spawnPair, PairedStrong, topPipe, bottomPipe, and_true]
  norm_num

theorem rightEdge_advance_eq (tex : Texture) (t b : Sprite)
    (hx : t.posX = b.posX) (hs : t.scaleX = b.scaleX) :
    rightEdge tex (advance t) = rightEdge tex (advance b) := by
  simp only [rightEdge, advance, Sprite.move, Sprite.getGlobalBounds, hx, hs]

theorem PairedStrong_advanceAndReap (tex : Texture) :
    ∀ l : List Sprite, PairedStrong l → PairedStrong (advanceAndReap tex l)
  | [], _ => by simp [advanceAndReap, PairedStrong]
  | [_], h => h.elim
  | t :: b :: rest, h => by
    obtain ⟨⟨h1, h2, h3, h4, h5⟩, hrest⟩ := h
    have ih := PairedStrong_advanceAndReap tex rest hrest
    rw [advanceAndReap_cons, advanceAndReap_cons, rightEdge_advance_eq tex t b h3 h5]
    by_cases hoff : rightEdge tex (advance b) < 0
    · simp only [hoff, if_true]
      exact ih
    · simp only [hoff, if_false]
      refine ⟨⟨?_, ?_, ?_, ?_, ?_⟩, ih⟩
      · simpa [advance, Sprite.move] using h1
      · simpa [advance, Sprite.move] using h2
      · simp [advance, Sprite.move, h3]
      · simp [advance, Sprite.move, h4]
      · simpa [advance, Sprite.move] using h5

theorem PairedStrong_paired : ∀ l : List Sprite, PairedStrong l → Paired l
  | [], _ => trivial
  | [_], h => h.elim
  | _ :: _ :: rest, h =>
    ⟨h.1.1, h.1.2.1, h.1.2.2.1, h.1.2.2.2.1, PairedStrong_paired rest h.2⟩

theorem handleEvent_pipes (s : Game) (e : Event) :
    (handleEvent s e).pipes = s.pipes ∨ (handleEvent s e).pipes = [] := by
  cases e with
  | closed => exact Or.inl rfl
  | other => exact Or.inl rfl
  | spacePressed =>
    cases hs : s.isGameOver
    · left; simp [handleEvent, hs]
    · right; simp [handleEvent, hs]

theorem updateLogic_pipes (env : Env) (s : Game) (elapsed : ℚ) (rnd : ℕ) :
    (updateLogic env s elapsed rnd).pipes = s.pipes ∨
    (updateLogic env s elapsed rnd).pipes
      = advanceAndReap env.pipeTex (pipesAfterSpawn s elapsed rnd) := by
  by_cases hF : Flying s
  · right; rw [updateLogic_flying env s elapsed rnd hF]
  · left; rw [updateLogic_not_flying env s elapsed rnd hF]

theorem PairedStrong_tick (env : Env) (s : Game) (inp : FrameInput)
    (h : PairedStrong s.pipes) : PairedStrong (tick env s inp).pipes := by
  have h1 : PairedStrong (handleEvents s inp.events).pipes := by
    refine handleEvents_preserves (fun g => PairedStrong g.pipes) ?_ inp.events s h
    intro g e hg
    rcases handleEvent_pipes g e with h' | h'
    · show PairedStrong (handleEvent g e).pipes
      rw [h']; exact hg
    · show PairedStrong (handleEvent g e).pipes
      rw [h']; trivial
  unfold tick
  rw [gameOverLogic_pipes]
  rcases updateLogic_pipes env (handleEvents s inp.events) inp.elapsed inp.rnd with h' | h'
  · rw [h']; exact h1
  · rw [h']
    apply PairedStrong_advanceAndReap
    unfold pipesAfterSpawn
    split_ifs
    · exact PairedStrong_append _ _ h1 (PairedStrong_spawnPair _)
    · exact h1

/-- C7: at every frame boundary of every run the obstacle vector is a
sequence of complete pairs, each top pipe (negative y-scale) directly followed
by its bottom pipe (positive y-scale) at the same x and exactly 160 lower;
the invariant is kept by spawning and by the move/remove pass, and moving an
obstacle changes neither its y nor its y-scale. -/
theorem C7_obstacles_stay_paired (env : Env) (inputs : List FrameInput) :
    Paired (run env inputs).pipes ∧
    (∀ (l : List Sprite) (rnd : ℕ), PairedStrong l →
      PairedStrong (l ++ spawnPair rnd) ∧ PairedStrong (advanceAndReap env.pipeTex l)) ∧
    (∀ p : Sprite, (advance p).posY = p.posY ∧ (advance p).scaleY = p.scaleY) := by
  refine ⟨PairedStrong_paired _ ?_, ?_, ?_⟩
  · exact run_preserves env (fun g => PairedStrong g.pipes) trivial
      (fun s inp hs => PairedStrong_tick env s inp hs) inputs
  · intro l rnd hl
    exact ⟨PairedStrong_append _ _ hl (PairedStrong_spawnPair rnd),
      PairedStrong_advanceAndReap env.pipeTex l hl⟩
  · intro p
    simp [advance, Sprite.move]

/-! ### Collision test -/

theorem scores_advance_onGrid (tex : Texture) (hw : tex.width = 380) (p : Sprite)
    (hp : OnGrid p) : scores tex (advance p) = false := by
  obtain ⟨hs, k, hk⟩ := hp
  have hwq : (tex.width : ℚ) = 380 := by rw [hw]; norm_num
  have hcenter : pipeCenter tex (advance p) = 602 - 7 / 2 * ((k : ℚ) + 1) := by
    simp only [pipeCenter, advance, Sprite.move, Sprite.getGlobalBounds, hs, hk, hwq]
    rw [max_eq_right (by linarith), min_eq_left (by linarith)]
    ring
  unfold scores
  rw [decide_eq_false_iff_not, hcenter]
  rintro ⟨_, h1, h2⟩
  have h3 : (152 : ℚ) < ((k + 1 : ℕ) : ℚ) := by push_cast; linarith
  have h4 : ((k + 1 : ℕ) : ℚ) < 153 := by push_cast; linarith
  have h5 : 152 < k + 1 := by exact_mod_cast h3
  have h6 : k + 1 < 153 := by exact_mod_cast h4
  omega

theorem scoreGain_onGrid (tex : Texture) (hw : tex.width = 380) (l : List Sprite)
    (hl : ∀ p ∈ l, OnGrid p) : scoreGain tex l = 0 := by
  unfold scoreGain
  rw [List.countP_eq_zero]
  intro q hq
  obtain ⟨p, hp, rfl⟩ := List.mem_map.mp hq
  rw [scores_advance_onGrid tex hw p (hl p hp)]
  exact Bool.false_ne_true

theorem onGrid_advance (p : Sprite) (hp : OnGrid p) : OnGrid (advance p) := by
  obtain ⟨hs, k, hk⟩ := hp
  refine ⟨hs, k + 1, ?_⟩
  simp only [advance, Sprite.move, hk]
  push_cast
  ring

theorem onGrid_advanceAndReap (tex : Texture) (l : List Sprite)
    (hl : ∀ p ∈ l, OnGrid p) : ∀ q ∈ advanceAndReap tex l, OnGrid q := by
  intro q hq
  unfold advanceAndReap at hq
  obtain ⟨p, hp, rfl⟩ := List.mem_map.mp (List.mem_filter.mp hq).1
  exact onGrid_advance p (hl p hp)

theorem onGrid_spawnPair (rnd : ℕ) : ∀ p ∈ spawnPair rnd, OnGrid p := by
  intro p hp
  simp only [spawnPair, List.mem_cons, List.mem_singleton, List.not_mem_nil, or_false] at hp
  rcases hp with rfl | rfl
  · exact ⟨rfl, 0, by simp [topPipe]⟩
  · exact ⟨rfl, 0, by simp [bottomPipe]⟩

theorem neverScored_tick (env : Env) (hw : env.pipeTex.width = 380) (s : Game)
    (inp : FrameInput) (h : NeverScored s) : NeverScored (tick env s inp) := by
  have h1 : NeverScored (handleEvents s inp.events) := by
    refine handleEvents_preserves NeverScored ?_ inp.events s h
    intro g e hg
    cases e with
    | closed => exact hg
    | other => exact hg
    | spacePressed =>
      cases hs : g.isGameOver
      · simpa [NeverScored, handleEvent, hs] using hg
      · simp [NeverScored, handleEvent, hs]
  unfold tick NeverScored
  rw [gameOverLogic_score, gameOverLogic_pipes]
  by_cases hF : Flying (handleEvents s inp.events)
  · rw [updateLogic_flying env _ inp.elapsed inp.rnd hF]
    have hall : ∀ p ∈ pipesAfterSpawn (handleEvents s inp.events) inp.elapsed inp.rnd,
        OnGrid p := by
      intro p hp
      unfold pipesAfterSpawn at hp
      split_ifs at hp
      · rcases List.mem_append.mp hp with hp | hp
        · exact h1.2 p hp
        · exact onGrid_spawnPair _ p hp
      · exact h1.2 p hp
    refine ⟨?_, onGrid_advanceAndReap _ _ hall⟩
    show (handleEvents s inp.events).score + _ = 0
    rw [scoreGain_onGrid env.pipeTex hw _ hall, h1.1]
    rfl
  · rw [updateLogic_not_flying env _ inp.elapsed inp.rnd hF]
    exact h1

theorem score_zero_of_width_380 (env : Env) (hw : env.pipeTex.width = 380)
    (inputs : List FrameInput) : (run env inputs).score = 0 :=
  (run_preserves env NeverScored ⟨rfl, fun _ hp => absurd hp (List.not_mem_nil _)⟩
    (fun s inp hs => neverScored_tick env hw s inp hs) inputs).1

/-- C1 (code defect): with a 380 pixel wide `pipe.png` no run ever scores,
whatever the texture height, the bird size and the inputs.  In the session
`steadyInputs` the pair spawned in frame 0 is on screen for 215 frames and gone
after frame 216, the round is Flying after every one of these frames, and the
score is still 0 when the pair is removed; the same session with a 90 pixel
wide texture scores 1. -/
theorem C1_wide_pipe_pair_never_scored :
    (∀ (h : ℕ) (bw : ℚ → ℚ) (inputs : List FrameInput),
      (run { pipeTex := { width := 380, height := h }, birdBoundsWidth := bw } inputs).score
        = 0) ∧
    (run wideEnv (steadyInputs 1)).pipes = [advance (topPipe 250), advance (bottomPipe 250)] ∧
    (∀ s ∈ (statesAlong wideEnv (steadyInputs 216)).tail, Flying s ∧ s.score = 0) ∧
    (∀ s ∈ (statesAlong wideEnv (steadyInputs 215)).tail, s.pipes.length = 2) ∧
    (run wideEnv (steadyInputs 216)).pipes = [] ∧
    (run sampleEnv (steadyInputs 216)).score = 1 := by
  refine ⟨fun h bw inputs => score_zero_of_width_380 _ rfl inputs, ?_⟩
  decide!

/-- C2 (code defect): a bottom pipe whose centre is exactly at `70` after the
move is not scored by the loop (the score stays 5), neither in this frame nor
in the next one, where the centre is at `66.5`; one whose centre is at `69.5`
is scored. -/
theorem C2_center_at_70_not_scored :
    (advance pipeBeforeCrossing).scaleY > 0 ∧
    pipeCenter wideEnv.pipeTex (advance pipeBeforeCrossing) = 70 ∧
    (pipeLoop wideEnv initGame.bird 0
      { pipes := [pipeBeforeCrossing], score := 5, isGameOver := false }).score = 5 ∧
    pipeCenter wideEnv.pipeTex (advance (advance pipeBeforeCrossing)) = 133 / 2 ∧
    (pipeLoop wideEnv initGame.bird 0
      { pipes := [advance pipeBeforeCrossing], score := 5, isGameOver := false }).score = 5 ∧
    pipeCenter wideEnv.pipeTex (advance { pipeBeforeCrossing with posX := -79 }) = 139 / 2 ∧
    (pipeLoop wideEnv initGame.bird 0
      { pipes := [{ pipeBeforeCrossing with posX := -79 }], score := 5,
        isGameOver := false }).score = 6 := by
  decide!

end FlappyBird
